import Mathlib

/-!
Shallow embedding of the appbundler package (src/appbundler/appbundler.py and
src/appbundler/utils.py) for checking its specification.

Filesystem paths are modelled as lists of path components; a filesystem is a
finite listing of directories and files.  The Python functions of the package
are translated clause by clause:
  * SupplementalData.__init__  -> mkSupplementalData
  * AppBundler._handle_supplemental_data (one data entry) -> copyData
  * AppBundler._install_dependencies -> installDependencies
  * AppBundler.bundle, build-directory creation step -> bundleCreateBuildDir
  * utils.cd used in a with-statement -> cdInit / withStatement
Python string operations the code relies on (str.replace, str.lstrip,
str.strip, str.upper, Path.stem, glob with the * wildcard) are modelled
explicitly below with structurally recursive functions so that every
concrete run can be evaluated by the kernel.

Two behaviours the tests and the spec use are absent from the source under
src/: the recursive flag and the flatten flag of the resolver.  They are
modelled from the spec in resolveRecursive and flattenCopy, each marked as
such in its doc comment.
-/

namespace Appbundler

/-- A filesystem path, as its list of components (no separators inside a
component).  The textual form joins components with a slash. -/
abbrev FPath := List String

/-- A filesystem: a listing of the directories and the files that exist.
Concrete example filesystems list every ancestor directory explicitly. -/
structure FS where
  dirs : List FPath
  files : List FPath
deriving DecidableEq

/-- Path exists, as Python Path.exists: it is a listed directory or file. -/
def FS.existsPath (fs : FS) (p : FPath) : Bool :=
  fs.dirs.contains p || fs.files.contains p

/-- Path is a directory, as Python Path.is_dir. -/
def FS.isDir (fs : FS) (p : FPath) : Bool :=
  fs.dirs.contains p

/-- Path is a file. -/
def FS.isFile (fs : FS) (p : FPath) : Bool :=
  fs.files.contains p

/-- All entries of the filesystem, directories first then files. -/
def FS.entries (fs : FS) : List FPath :=
  fs.dirs ++ fs.files

/-- Glob wildcard matching on one name, the fragment of fnmatch the package
uses: a star matches any (possibly empty) run of characters, every other
character matches itself. -/
def globMatch : List Char → List Char → Bool
  | [], s => s.isEmpty
  | p :: ps, s =>
    if p == '*' then s.tails.any fun t => globMatch ps t
    else
      match s with
      | [] => false
      | c :: cs => p == c && globMatch ps cs

/-- Pattern match on a path name (string form). -/
def matchName (pat name : String) : Bool :=
  globMatch pat.toList name.toList

/-- Direct children of a root: entries exactly one component below it. -/
def FS.children (fs : FS) (root : FPath) : List FPath :=
  fs.entries.filter fun p => (p.length == root.length + 1) && root.isPrefixOf p

/-- Path.glob with a pattern free of separators: the direct children of the
root whose final component matches the pattern. -/
def glob (fs : FS) (root : FPath) (pat : String) : List FPath :=
  (fs.children root).filter fun p => matchName pat (p.getLastD "")

/-- Python sub.lstrip with the two slash characters: drop leading slashes
and backslashes. -/
def pyLstripSlashes (s : String) : String :=
  (s.toList.dropWhile fun c => c == '/' || c == '\\').asString

/-- Split a character list on a separator character. -/
def splitChars (sep : Char) : List Char → List (List Char)
  | [] => [[]]
  | c :: rest =>
    let r := splitChars sep rest
    if c == sep then [] :: r
    else
      match r with
      | [] => [[c]]
      | g :: gs => (c :: g) :: gs

/-- Split a textual path on slashes into components, dropping empty pieces,
as Path.joinpath does when handed a string containing separators. -/
def splitPath (s : String) : FPath :=
  ((splitChars '/' s.toList).map List.asString).filter fun c => !(c == "")

/-- Join components with slashes: str of a Path. -/
def joinPath : FPath → String
  | [] => ""
  | [x] => x
  | x :: xs => x ++ "/" ++ joinPath xs

/-- Python str.replace on character lists, with fuel equal to the length of
the subject so the recursion is structural: replace every non-overlapping
occurrence of old, scanning left to right.  (For empty old the subject is
returned unchanged; the package never calls it that way.) -/
def replaceCharsAux (old new : List Char) : Nat → List Char → List Char
  | _, [] => []
  | 0, s => s
  | fuel + 1, c :: rest =>
    if !old.isEmpty && old.isPrefixOf (c :: rest) then
      new ++ replaceCharsAux old new fuel ((c :: rest).drop old.length)
    else
      c :: replaceCharsAux old new fuel rest

/-- Python str.replace on strings. -/
def pyReplace (s old new : String) : String :=
  (replaceCharsAux old.toList new.toList s.toList.length s.toList).asString

/-- Python pathlib Path.stem of a name: the name without its suffix, where
the suffix starts at the last dot when that dot is neither the first nor the
last character. -/
def stemOf (name : String) : String :=
  let cs := name.toList
  let n := cs.length
  let dotIdxs := (List.range n).filter fun i => cs.getD i ' ' == '.'
  match dotIdxs.getLast? with
  | some i => if 0 < i ∧ i < n - 1 then (cs.take i).asString else name
  | none => name

/-- Python str.strip with no argument: drop leading and trailing
whitespace. -/
def pyStrip (s : String) : String :=
  ((s.toList.dropWhile Char.isWhitespace).reverse.dropWhile
    Char.isWhitespace).reverse.asString

/-- Python str.upper, on the characters the package compares. -/
def pyUpper (s : String) : String :=
  (s.toList.map Char.toUpper).asString

/-- Decidable equality on Except values. -/
instance exceptDecEq {ε α : Type} [DecidableEq ε] [DecidableEq α] :
    DecidableEq (Except ε α)
  | .ok a, .ok b =>
    if h : a = b then .isTrue (by rw [h])
    else .isFalse (by intro hc; cases hc; exact h rfl)
  | .ok _, .error _ => .isFalse (by intro hc; cases hc)
  | .error _, .ok _ => .isFalse (by intro hc; cases hc)
  | .error e, .error f =>
    if h : e = f then .isTrue (by rw [h])
    else .isFalse (by intro hc; cases hc; exact h rfl)

/-- The SupplementalData record of appbundler.py: the constructor arguments
it stores plus the resolved locations_to_copy. -/
structure SupplementalData where
  directory : FPath
  sub_directories : Option (List String)
  pattern : Option String
  locations_to_copy : List FPath
deriving DecidableEq

/-- The validation loop of SupplementalData.__init__ over sub_directories:
each entry is stripped of leading slashes, joined onto the base directory,
and must exist; the first missing one raises ValueError.  The validated
paths are the ones appended to self.locations_to_copy inside the loop. -/
def validateSubs (fs : FS) (directory : FPath) :
    List String → Except String (List FPath)
  | [] => .ok []
  | sub :: rest =>
    let current := directory ++ splitPath (pyLstripSlashes sub)
    if fs.existsPath current then
      (validateSubs fs directory rest).map fun v => current :: v
    else
      .error ("Directory does not exist: " ++ joinPath current)

/-- SupplementalData.__init__, translated clause by clause.  The local list
named locations receives the base directory only in the no-sub_directories
branch; the sub_directories branch appends the validated roots to
self.locations_to_copy instead and leaves locations empty.  Afterwards,
when pattern is None the field locations_to_copy is assigned the locations
list (overwriting anything the loop put there), and when a pattern is given
the glob results over the locations list are appended to what
locations_to_copy already holds. -/
def mkSupplementalData (fs : FS) (directory : FPath)
    (sub_directories : Option (List String)) (pattern : Option String) :
    Except String SupplementalData :=
  match sub_directories with
  | none =>
    let locations : List FPath := [directory]
    match pattern with
    | none => .ok ⟨directory, sub_directories, pattern, locations⟩
    | some p =>
      .ok ⟨directory, sub_directories, pattern,
        ([] : List FPath) ++ locations.flatMap fun l => glob fs l p⟩
  | some subs =>
    let locations : List FPath := []
    match validateSubs fs directory subs with
    | .error e => .error e
    | .ok ltc =>
      match pattern with
      | none => .ok ⟨directory, sub_directories, pattern, locations⟩
      | some p =>
        .ok ⟨directory, sub_directories, pattern,
          ltc ++ locations.flatMap fun l => glob fs l p⟩

/-- Whether an Except carries a success value. -/
def exceptOk {ε α : Type} : Except ε α → Bool
  | .ok _ => true
  | .error _ => false

/-- All files at or below a root directory, as os.walk visits them. -/
def filesUnder (fs : FS) (root : FPath) : List FPath :=
  fs.files.filter fun f => root.isPrefixOf f

/-- AppBundler._handle_supplemental_data for one SupplementalData entry,
returning the list of performed copies as pairs of source file and
destination file.  src_base is the string of data.directory and dst_base is
the string of build_directory joined with data.directory.stem; every
destination directory is produced by str.replace of src_base with dst_base
inside the source directory string, exactly as the Python does (mkdir with
parents and the overwriting copy2 are implicit in producing the destination
path). -/
def copyData (fs : FS) (build_directory : FPath) (data : SupplementalData) :
    List (FPath × FPath) :=
  let src_base := joinPath data.directory
  let dst_base := joinPath (build_directory ++ [stemOf (data.directory.getLastD "")])
  data.locations_to_copy.flatMap fun src =>
    if fs.isDir src then
      (filesUnder fs src).map fun f =>
        let dst_dir := pyReplace (joinPath f.dropLast) src_base dst_base
        (f, splitPath dst_dir ++ [f.getLastD ""])
    else
      let dst_dir := pyReplace (joinPath src.dropLast) src_base dst_base
      [(src, splitPath dst_dir ++ [src.getLastD ""])]

/-- Which pip invocation AppBundler._install_dependencies builds. -/
inductive InstallCmd
  | pipRequirements
  | pipSetup
deriving DecidableEq

/-- Outcome of AppBundler._install_dependencies: the pip invocation used and
whether the package source tree was copied into the build directory. -/
structure InstallResult where
  cmd : InstallCmd
  packageCopied : Bool
deriving DecidableEq

/-- AppBundler._install_dependencies: requirements.txt first, then setup.py,
else ValueError; package_copy_required is set only in the requirements.txt
branch, and drives a copytree of the package directory at the end. -/
def installDependencies (fs : FS) (app_directory : FPath) :
    Except String InstallResult :=
  let requirements_file := app_directory ++ ["requirements.txt"]
  let setup_file := app_directory ++ ["setup.py"]
  if fs.existsPath requirements_file then
    .ok ⟨.pipRequirements, true⟩
  else if fs.existsPath setup_file then
    .ok ⟨.pipSetup, false⟩
  else
    .error "Could not locate requirements.txt or setup.py."

/-- Remove a path and everything below it: shutil.rmtree. -/
def removeTree (fs : FS) (p : FPath) : FS :=
  ⟨fs.dirs.filter fun d => !(p.isPrefixOf d),
   fs.files.filter fun f => !(p.isPrefixOf f)⟩

/-- All nonempty ancestor paths of p, p itself included. -/
def ancestorsOf (p : FPath) : List FPath :=
  (List.range p.length).map fun i => p.take (i + 1)

/-- Path.mkdir with parents=True: create the directory and any missing
ancestors. -/
def FS.mkdirParents (fs : FS) (p : FPath) : FS :=
  ⟨fs.dirs ++ (ancestorsOf p).filter fun q => !(fs.dirs.contains q), fs.files⟩

/-- The overwrite confirmation test in AppBundler.bundle:
decision.strip().upper() compared with the letter Y. -/
def confirmIsYes (decision : String) : Bool :=
  pyUpper (pyStrip decision) == "Y"

/-- Outcome of the bundle build-directory step: either the run proceeds with
a new filesystem state, or bundle returns early (no error) with the state it
leaves behind. -/
inductive BundleOutcome
  | proceeded (fs : FS)
  | returnedEarly (fs : FS)
deriving DecidableEq

/-- The build-directory creation step of AppBundler.bundle: mkdir succeeds
when the directory is absent; on FileExistsError the user is prompted and an
answer whose strip().upper() is Y deletes and recreates the directory, any
other answer returns from bundle without error, touching nothing. -/
def bundleCreateBuildDir (fs : FS) (build_directory : FPath)
    (decision : String) : BundleOutcome :=
  if fs.existsPath build_directory then
    if confirmIsYes decision then
      .proceeded ((removeTree fs build_directory).mkdirParents build_directory)
    else
      .returnedEarly fs
  else
    .proceeded (fs.mkdirParents build_directory)

/-- The cd context manager of utils.py: __init__ records os.getcwd() into
original_dir and the destination into new_dir. -/
structure CdCtx where
  original_dir : FPath
  new_dir : FPath

/-- Construction of cd: original_dir is the working directory at
construction time. -/
def cdInit (cwd dest : FPath) : CdCtx := ⟨cwd, dest⟩

/-- The cd __enter__ method: chdir to new_dir, whatever the directory was. -/
def cdEnter (c : CdCtx) (cwd : FPath) : FPath :=
  let _ := cwd
  c.new_dir

/-- The cd __exit__ method: chdir back to original_dir on every exit,
normal or exceptional. -/
def cdExit (c : CdCtx) (cwd : FPath) : FPath :=
  let _ := cwd
  c.original_dir

/-- A with-statement over the cd manager: enter, run the body (which may
move the working directory and may raise), then exit runs on both the
normal and the raising path, the exception being re-raised after it.  The
body maps the working directory it starts in to the directory it ends in
plus its verdict; the result pairs the final working directory with that
verdict. -/
def withStatement {α : Type} (c : CdCtx)
    (body : FPath → FPath × Except Unit α) (cwd : FPath) :
    FPath × Except Unit α :=
  let cwd1 := cdEnter c cwd
  let step := body cwd1
  let cwd2 := cdExit c step.1
  (cwd2, step.2)

/-- Modelled from the spec: the resolver's recursive flag, which src/ lacks
(SupplementalData.__init__ in src/appbundler/appbundler.py accepts no
recursive argument; the tests and the spec use one).  Recursive resolution
searches a candidate root at any depth, keeping the entries strictly below
the root whose name matches the pattern; non-recursive resolution is the
direct-children glob. -/
def resolveRecursive (fs : FS) (root : FPath) (pat : String)
    (recursive : Bool) : List FPath :=
  if recursive then
    fs.entries.filter fun p =>
      (root.isPrefixOf p && !(p == root)) && matchName pat (p.getLastD "")
  else
    glob fs root pat

/-- Modelled from the spec: the flatten=true copy mode, which src/ lacks
(AppBundler._handle_supplemental_data always mirrors structure; the tests
and the spec use a flatten flag).  Every matched file is copied directly
under the destination root under its own name, whatever its depth. -/
def flattenCopy (dest : FPath) (srcs : List FPath) : List (FPath × FPath) :=
  srcs.map fun s => (s, dest ++ [s.getLastD ""])

/-- The content a destination path holds after a list of copies is applied
in order, later copies overwriting earlier ones: the source of the last
copy that wrote to it. -/
def lastWrite (copies : List (FPath × FPath)) (target : FPath) : Option FPath :=
  copies.foldl (fun acc c => if c.2 = target then some c.1 else acc) none

/-- Example filesystem for the sub-directories-without-pattern run: a data
directory with one sub-directory holding one file. -/
def fsC1 : FS := ⟨[["data"], ["data", "sub"]], [["data", "sub", "sub.json"]]⟩

/-- Example filesystem for the pattern run: the sub-directory holds one
json file and one yaml file. -/
def fsC2 : FS :=
  ⟨[["data"], ["data", "sub"]],
   [["data", "sub", "sub.json"], ["data", "sub", "sub2.yaml"]]⟩

/-- The data layout of the spec's concrete scenario: test.json and
test2.json at the top and sub/sub.json, sub/sub2.yaml below. -/
def fsC3 : FS :=
  ⟨[["data"], ["data", "sub"]],
   [["data", "test.json"], ["data", "test2.json"],
    ["data", "sub", "sub.json"], ["data", "sub", "sub2.yaml"]]⟩

/-- Example filesystem whose base directory string reappears inside a
descendant component: directory a contains ca/x.json. -/
def fsC5 : FS := ⟨[["a"], ["a", "ca"]], [["a", "ca", "x.json"]]⟩

/-- App directory holding only a setup.py. -/
def fsSetupOnly : FS := ⟨[["app"]], [["app", "setup.py"]]⟩

/-- App directory holding neither manifest. -/
def fsNoManifest : FS := ⟨[["app"]], []⟩

/-- App directory holding only a requirements.txt. -/
def fsReqOnly : FS := ⟨[["app"]], [["app", "requirements.txt"]]⟩

/-- App directory holding both manifests. -/
def fsBothManifests : FS :=
  ⟨[["app"]], [["app", "requirements.txt"], ["app", "setup.py"]]⟩

/-- A pre-existing build directory with content in it. -/
def fsC8 : FS := ⟨[["app"], ["app", "build"]], [["app", "build", "old.txt"]]⟩

/-- Success of an Except is unchanged by map. -/
theorem exceptOk_map {ε α β : Type} (f : α → β) (e : Except ε α) :
    exceptOk (e.map f) = exceptOk e := by
  cases e <;> rfl

/-- The validation loop succeeds exactly when every stripped sub-directory
entry exists under the base directory. -/
theorem validateSubs_isOk (fs : FS) (dir : FPath) (subs : List String) :
    exceptOk (validateSubs fs dir subs) =
      subs.all fun s => fs.existsPath (dir ++ splitPath (pyLstripSlashes s)) := by
  induction subs with
  | nil => rfl
  | cons s rest ih =>
    cases hb : fs.existsPath (dir ++ splitPath (pyLstripSlashes s)) with
    | false => simp [validateSubs, hb, exceptOk]
    | true => simp [validateSubs, hb, exceptOk_map, ih]

/-- C1: a SupplementalData built over fsC1 with sub_directories containing
the one existing sub-directory and no pattern resolves an empty
locations_to_copy, not the candidate root data/sub: the constructor
overwrites the roots it collected with the empty locations list.  The
repository's own test asserts the root is resolved, so this run contradicts
the test suite. -/
theorem c1_subdirectory_roots_dropped_without_pattern :
    (mkSupplementalData fsC1 ["data"] (some ["/sub"]) none).map
        (fun d => d.locations_to_copy) = .ok ([] : List FPath)
    ∧ (mkSupplementalData fsC1 ["data"] (some ["/sub"]) none).map
        (fun d => d.locations_to_copy) ≠ .ok [["data", "sub"]] := by
  decide

/-- C2: a SupplementalData built over fsC2 with sub_directories and a
pattern resolves the candidate root itself, unfiltered, although the glob
over that root matches exactly data/sub/sub.json: the pattern loop iterates
over the empty locations list, so the matches are never collected.  The
repository's own test asserts the glob matches are resolved. -/
theorem c2_pattern_ignored_under_subdirectories :
    (mkSupplementalData fsC2 ["data"] (some ["sub"]) (some "*.json")).map
        (fun d => d.locations_to_copy) = .ok [["data", "sub"]]
    ∧ glob fsC2 ["data", "sub"] "*.json" = [["data", "sub", "sub.json"]]
    ∧ (mkSupplementalData fsC2 ["data"] (some ["sub"]) (some "*.json")).map
        (fun d => d.locations_to_copy) ≠ .ok [["data", "sub", "sub.json"]] := by
  decide

/-- C3: over the spec's concrete data layout, recursive resolution of
*.json finds test.json, test2.json and sub/sub.json, at any depth, and
excludes sub/sub2.yaml, while non-recursive resolution finds only the two
direct children; in general a path is resolved recursively exactly when it
is an entry strictly below the root whose name matches, and non-recursively
exactly when it is a matching entry exactly one component below the root. -/
theorem c3_recursive_any_depth_nonrecursive_direct_children :
    (∀ (fs : FS) (root : FPath) (pat : String) (p : FPath),
        p ∈ resolveRecursive fs root pat true ↔
          p ∈ fs.entries ∧ List.isPrefixOf root p = true ∧ p ≠ root ∧
            matchName pat (p.getLastD "") = true)
    ∧ (∀ (fs : FS) (root : FPath) (pat : String) (p : FPath),
        p ∈ resolveRecursive fs root pat false ↔
          p ∈ fs.entries ∧ p.length = root.length + 1 ∧
            List.isPrefixOf root p = true ∧ matchName pat (p.getLastD "") = true)
    ∧ resolveRecursive fsC3 ["data"] "*.json" true =
        [["data", "test.json"], ["data", "test2.json"],
         ["data", "sub", "sub.json"]]
    ∧ ["data", "sub", "sub2.yaml"] ∉ resolveRecursive fsC3 ["data"] "*.json" true
    ∧ resolveRecursive fsC3 ["data"] "*.json" false =
        [["data", "test.json"], ["data", "test2.json"]] := by
  refine ⟨?_, ?_, by decide, by decide, by decide⟩
  · intro fs root pat p
    simp [resolveRecursive, List.mem_filter, and_assoc]
  · intro fs root pat p
    simp [resolveRecursive, glob, FS.children, List.mem_filter, and_assoc]
    tauto

/-- C4: the flatten copy mode sends every source file, whatever its depth,
to the destination root joined directly with its final name (so the parent
of every destination is the destination root itself, with no intermediate
directories), and when two sources collide on one basename the last copy in
order wins, without an error. -/
theorem c4_flatten_copies_direct_children_last_write_wins :
    (∀ (dest : FPath) (srcs : List FPath),
        (flattenCopy dest srcs).all
          (fun st => st.2 == dest ++ [st.1.getLastD ""] &&
            st.2.dropLast == dest) = true)
    ∧ lastWrite (flattenCopy ["dst"] [["a", "x.json"], ["b", "sub", "x.json"]])
        ["dst", "x.json"] = some ["b", "sub", "x.json"] := by
  refine ⟨?_, by decide⟩
  intro dest srcs
  simp only [flattenCopy, List.all_eq_true, List.mem_map]
  rintro st ⟨s, _, rfl⟩
  simp

/-- C5: copying the resolved base directory of fsC5 (directory a, holding
ca/x.json) into build directory b lands the file at b/a/cb/a/x.json, not at
b/a/ca/x.json: the destination directory is produced by str.replace of the
base string inside the source string, which also rewrites the later
occurrence of a inside the component ca, so the relative structure is not
preserved. -/
theorem c5_copy_mangles_relative_structure :
    (mkSupplementalData fsC5 ["a"] none none).map (copyData fsC5 ["b"]) =
        .ok [(["a", "ca", "x.json"], ["b", "a", "cb", "a", "x.json"])]
    ∧ (["b", "a", "cb", "a", "x.json"] : FPath) ≠ ["b", "a", "ca", "x.json"] := by
  decide

/-- C6: construction over declared sub-directories succeeds exactly when
every entry, after stripping leading slashes, exists under the base
directory (a missing one raises the directory-does-not-exist ValueError),
and construction without declared sub-directories always succeeds. -/
theorem c6_construction_succeeds_iff_subdirectories_exist :
    (∀ (fs : FS) (dir : FPath) (subs : List String) (pat : Option String),
        exceptOk (mkSupplementalData fs dir (some subs) pat) =
          subs.all fun s => fs.existsPath (dir ++ splitPath (pyLstripSlashes s)))
    ∧ (∀ (fs : FS) (dir : FPath) (pat : Option String),
        exceptOk (mkSupplementalData fs dir none pat) = true) := by
  constructor
  · intro fs dir subs pat
    rw [← validateSubs_isOk]
    cases hv : validateSubs fs dir subs <;> cases pat <;>
      simp [mkSupplementalData, hv, exceptOk]
  · intro fs dir pat
    cases pat <;> rfl

/-- C7 counterexample: in an app directory holding only setup.py, the
install step takes the setup.py branch and does not copy the package source
tree, against the claim that a build-script-style manifest triggers the
copy. -/
theorem c7_counterexample_setup_branch_does_not_copy :
    installDependencies fsSetupOnly ["app"] = .ok ⟨.pipSetup, false⟩
    ∧ (⟨.pipSetup, false⟩ : InstallResult) ≠ ⟨.pipSetup, true⟩ := by
  decide

/-- C7 amended: with neither requirements.txt nor setup.py present the
install step fails with the configuration ValueError; it is the
requirements.txt branch that also copies the package source tree into the
build directory, while the setup.py branch does not. -/
theorem c7_amended_requirements_branch_copies_package :
    ∀ (fs : FS) (app_directory : FPath),
      (fs.existsPath (app_directory ++ ["requirements.txt"]) = false →
        fs.existsPath (app_directory ++ ["setup.py"]) = false →
        installDependencies fs app_directory =
          .error "Could not locate requirements.txt or setup.py.")
      ∧ (fs.existsPath (app_directory ++ ["requirements.txt"]) = true →
          installDependencies fs app_directory = .ok ⟨.pipRequirements, true⟩)
      ∧ (fs.existsPath (app_directory ++ ["requirements.txt"]) = false →
          fs.existsPath (app_directory ++ ["setup.py"]) = true →
          installDependencies fs app_directory = .ok ⟨.pipSetup, false⟩) := by
  intro fs app_directory
  refine ⟨fun h1 h2 => ?_, fun h1 => ?_, fun h1 h2 => ?_⟩
  · simp [installDependencies, h1, h2]
  · simp [installDependencies, h1]
  · simp [installDependencies, h1, h2]

/-- Witness for the amended C7, on the three concrete app directories. -/
theorem c7_amended_witness :
    installDependencies fsNoManifest ["app"] =
        .error "Could not locate requirements.txt or setup.py."
    ∧ installDependencies fsReqOnly ["app"] = .ok ⟨.pipRequirements, true⟩
    ∧ installDependencies fsSetupOnly ["app"] = .ok ⟨.pipSetup, false⟩ :=
  ⟨(c7_amended_requirements_branch_copies_package fsNoManifest ["app"]).1
      (by decide) (by decide),
   (c7_amended_requirements_branch_copies_package fsReqOnly ["app"]).2.1
      (by decide),
   (c7_amended_requirements_branch_copies_package fsSetupOnly ["app"]).2.2
      (by decide) (by decide)⟩

/-- C8: when the build directory already exists, an answer that does not
normalize to Y makes bundle return early with the filesystem exactly as it
was, and only an answer normalizing to Y deletes the tree and recreates the
directory. -/
theorem c8_existing_build_dir_untouched_without_confirmation :
    ∀ (fs : FS) (build_directory : FPath) (decision : String),
      fs.existsPath build_directory = true →
      ((confirmIsYes decision = false →
          bundleCreateBuildDir fs build_directory decision = .returnedEarly fs)
       ∧ (confirmIsYes decision = true →
          bundleCreateBuildDir fs build_directory decision =
            .proceeded ((removeTree fs build_directory).mkdirParents
              build_directory))) := by
  intro fs build_directory decision hex
  constructor <;> intro hc <;> simp [bundleCreateBuildDir, hex, hc]

/-- Witness for C8: an existing build directory with content, answer n. -/
theorem c8_witness :
    bundleCreateBuildDir fsC8 ["app", "build"] "n" = .returnedEarly fsC8 :=
  (c8_existing_build_dir_untouched_without_confirmation fsC8 ["app", "build"]
    "n" (by decide)).1 (by decide)

/-- C9: a with-statement over the cd manager ends with the working
directory recorded at construction, for every body, in particular for a
body that moves elsewhere and raises. -/
theorem c9_working_directory_restored_on_all_exit_paths :
    (∀ (cwd0 dest : FPath) (body : FPath → FPath × Except Unit FPath),
        (withStatement (cdInit cwd0 dest) body cwd0).1 = cwd0)
    ∧ (∀ (cwd0 dest wrecked : FPath),
        (withStatement (cdInit cwd0 dest)
          (fun _ => (wrecked, (Except.error () : Except Unit FPath))) cwd0).1 =
          cwd0) := by
  exact ⟨fun _ _ _ => rfl, fun _ _ _ => rfl⟩

/-- C10: when requirements.txt exists, the install step takes the
requirements branch whether or not setup.py also exists; with both present
the result is the requirements invocation with the package copy, and no
error. -/
theorem c10_requirements_branch_wins_when_both_manifests_exist :
    ∀ (fs : FS) (app_directory : FPath),
      fs.existsPath (app_directory ++ ["requirements.txt"]) = true →
      fs.existsPath (app_directory ++ ["setup.py"]) = true →
      installDependencies fs app_directory = .ok ⟨.pipRequirements, true⟩ := by
  intro fs app_directory h1 h2
  simp [installDependencies, h1]

/-- Witness for C10: an app directory holding both manifests. -/
theorem c10_witness :
    installDependencies fsBothManifests ["app"] = .ok ⟨.pipRequirements, true⟩ :=
  c10_requirements_branch_wins_when_both_manifests_exist fsBothManifests
    ["app"] (by decide) (by decide)

end Appbundler
